import Mathlib

/-!
Shallow embedding of the Saucer repository (src/main.py): vector math,
the solar-system container, procedural universe chunks, craft landing
logic, and the editor-zip importers, together with theorems settling the
specification claims against the code.

Python floats are modelled as real numbers; machine integers as Int/Nat.
Rendering (OpenGL calls), texture decoding and the pygame event loop are
out of scope of every claim and are not embedded.

Layout: all definitions first, then the theorems.
-/

namespace Saucer

/-- Embeds class Vec3: a 3-component float vector. -/
@[ext]
structure Vec3 where
  x : ℝ
  y : ℝ
  z : ℝ

namespace Vec3

/-- Vec3.copy. -/
def copy (v : Vec3) : Vec3 := ⟨v.x, v.y, v.z⟩

/-- Vec3.add. -/
def add (v w : Vec3) : Vec3 := ⟨v.x + w.x, v.y + w.y, v.z + w.z⟩

/-- Vec3.sub. -/
def sub (v w : Vec3) : Vec3 := ⟨v.x - w.x, v.y - w.y, v.z - w.z⟩

/-- Vec3.mul (scalar). -/
def mul (v : Vec3) (s : ℝ) : Vec3 := ⟨v.x * s, v.y * s, v.z * s⟩

/-- Vec3.mag. -/
noncomputable def mag (v : Vec3) : ℝ := Real.sqrt (v.x ^ 2 + v.y ^ 2 + v.z ^ 2)

open Classical in
/-- Vec3.normalize: divides by the magnitude when it is positive, else the
zero vector. -/
noncomputable def normalize (v : Vec3) : Vec3 :=
  if 0 < v.mag then ⟨v.x / v.mag, v.y / v.mag, v.z / v.mag⟩ else ⟨0, 0, 0⟩

/-- Vec3.dist. -/
noncomputable def dist (v w : Vec3) : ℝ := (v.sub w).mag

end Vec3

/-- The state-relevant fields of class Planet (rendering fields such as the
quadric, texture id and ring geometry are not part of any claim). -/
structure Body where
  name : String
  type : String
  pos : Vec3
  radius : ℝ
  orbitDistance : ℝ
  orbitSpeed : ℝ
  orbitAngle : ℝ
  /-- Python stores a reference to the parent Body object; the embedding
  stores the index of that body in its group's list (the importer assigns
  parents exactly by such indices). none embeds Python None. -/
  parent : Option Nat

/-- A concrete body used by closed theorems. -/
def mkBody (ty : String) (p : Vec3) (r : ℝ) : Body :=
  ⟨"Test", ty, p, r, 0, 0.2, 0, none⟩

/-- Embeds class SolarSystem: name, body list, center position. -/
structure SolarSystem where
  name : String
  bodies : List Body
  center_pos : Vec3

namespace SolarSystem

/-- SolarSystem.add_body: append the body; if its type is the string sun,
overwrite center_pos with a copy of the body's position. -/
def add_body (s : SolarSystem) (b : Body) : SolarSystem :=
  { s with
    bodies := s.bodies ++ [b]
    center_pos := if b.type = "sun" then b.pos.copy else s.center_pos }

end SolarSystem

/-- A fresh SolarSystem as built by the constructor with default name. -/
def emptySystem : SolarSystem := ⟨"Custom System", [], ⟨0, 0, 0⟩⟩

/-- A sequence of add_body calls. -/
def addBodies (s : SolarSystem) (bs : List Body) : SolarSystem :=
  bs.foldl SolarSystem.add_body s

/-- The position of the last body of type sun in the list, or the default
when the list holds no sun. -/
def lastSunPos (d : Vec3) : List Body → Vec3
  | [] => d
  | b :: bs => lastSunPos (if b.type = "sun" then b.pos else d) bs

/-- Universe.chunk_size. -/
def chunk_size : Int := 2000

/-- Universe.get_chunk: floor-divide each coordinate of the position by the
chunk size (Python // on floats is floor division; int() of the already
floored value keeps it). -/
noncomputable def get_chunk (p : Vec3) : Int × Int × Int :=
  (⌊p.x / (chunk_size : ℝ)⌋, ⌊p.y / (chunk_size : ℝ)⌋, ⌊p.z / (chunk_size : ℝ)⌋)

/-- The axis-aligned half-open chunk cell with integer coordinates (a,b,c). -/
def inChunkCell (a b c : Int) (p : Vec3) : Prop :=
  (a : ℝ) * 2000 ≤ p.x ∧ p.x < ((a : ℝ) + 1) * 2000 ∧
  (b : ℝ) * 2000 ≤ p.y ∧ p.y < ((b : ℝ) + 1) * 2000 ∧
  (c : ℝ) * 2000 ≤ p.z ∧ p.z < ((c : ℝ) + 1) * 2000

open Classical in
/-- Planet.update_orbit: when orbitDistance > 0.1 and a parent reference is
set, advance the orbit angle and recompute the x and z components of the
position from the parent position; the y component is not written. -/
noncomputable def Body.update_orbit (b : Body) (dt : ℝ) (parent_pos : Vec3) : Body :=
  if 0.1 < b.orbitDistance ∧ b.parent ≠ none then
    let angle := b.orbitAngle + b.orbitSpeed * dt * 0.3
    { b with
      orbitAngle := angle
      pos := ⟨parent_pos.x + Real.cos angle * b.orbitDistance, b.pos.y,
              parent_pos.z + Real.sin angle * b.orbitDistance⟩ }
  else b

/-- Written from the spec's words, for comparison with the code:
parent.position + (cos(angle)*distance, 0, sin(angle)*distance). -/
noncomputable def specOrbitPos (parent_pos : Vec3) (angle distance : ℝ) : Vec3 :=
  parent_pos.add ⟨Real.cos angle * distance, 0, Real.sin angle * distance⟩

/-- A concrete orbiting body whose y coordinate differs from its parent's. -/
def moonAbove : Body := ⟨"Moon", "planet", ⟨10, 50, 0⟩, 10, 10, 1, 0, some 0⟩

/-- A concrete orbiting body at its parent's height. -/
def moonLevel : Body := ⟨"Moon", "planet", ⟨10, 0, 0⟩, 10, 10, 1, 0, some 0⟩

/-- A concrete body with no parent. -/
def lonePlanet : Body := ⟨"Lone", "planet", ⟨10, 0, 0⟩, 10, 500, 1, 0, none⟩

/-- The fields of class Saucer read or written by the landing/collision
loop (Saucer.update, lines 242-256). -/
structure Craft where
  pos : Vec3
  vel : Vec3
  speed : ℝ
  pitch : ℝ
  landed_on : Option Body
  ui_message : String

/-- The landing snap position: body.pos + normalize(craft.pos - body.pos)
* (body.radius + 7). -/
noncomputable def snapPos (c : Craft) (p : Body) : Vec3 :=
  p.pos.add (((c.pos.sub p.pos).normalize).mul (p.radius + 7))

open Classical in
/-- One iteration of the landing/collision loop of Saucer.update for one
body p: within radius + 23, land when |speed| < 11 (zero speed and
velocity, snap the position, pitch -82), else bounce (warning message,
move back by vel * 2, damp speed by 0.3). -/
noncomputable def collideOne (c : Craft) (p : Body) : Craft :=
  if c.pos.dist p.pos < p.radius + 23 then
    if |c.speed| < 11 then
      { c with
        landed_on := some p
        speed := 0
        vel := ⟨0, 0, 0⟩
        pos := snapPos c p
        pitch := -82 }
    else
      { c with
        ui_message := "WARNING: Too fast! Bouncing off atmosphere!"
        pos := c.pos.sub (c.vel.mul 2)
        speed := c.speed * 0.3 }
  else c

/-- The whole loop: for p in planets, in list order, with no early exit. -/
noncomputable def collideAll (c : Craft) (ps : List Body) : Craft :=
  ps.foldl collideOne c

/-- Concrete bodies and crafts for the landing theorems. -/
def bodyBig : Body := mkBody "planet" ⟨0, 0, 0⟩ 100

def bodyFar : Body := mkBody "planet" ⟨214, 0, 0⟩ 100

def craftSlow : Craft := ⟨⟨115, 0, 0⟩, ⟨5, 0, 0⟩, 5, 0, none, ""⟩

def craftFast : Craft := ⟨⟨115, 0, 0⟩, ⟨20, 0, 0⟩, 20, 0, none, ""⟩

def craftTwo : Craft := ⟨⟨110, 0, 0⟩, ⟨5, 0, 0⟩, 5, 0, none, ""⟩

/-! ### Procedural universe: chunk generation and cache -/

/-- A chunk coordinate. -/
abbrev Coord := Int × Int × Int

/-- Deterministic stand-in for the state transition of Python's global
Mersenne Twister (module random): one 64-bit LCG step. Only determinism
of the stream matters to the claims, not its exact values. -/
def rngNext (s : Nat) : Nat := (s * 6364136223846793005 + 1442695040888963407) % 2 ^ 64

/-- random.randint(lo, hi): inclusive bounds; advances the stream. -/
def randint (s : Nat) (lo hi : Int) : Nat × Int :=
  let s1 := rngNext s
  (s1, lo + ((s1 % (hi - lo + 1).toNat : Nat) : Int))

/-- random.random(): a value in [0,1) (Python doubles modelled as
rationals with 53-bit numerators); advances the stream. -/
def randfloat (s : Nat) : Nat × ℚ :=
  let s1 := rngNext s
  (s1, ((s1 % 2 ^ 53 : Nat) : ℚ) / (2 ^ 53 : ℚ))

/-- Deterministic stand-in for Python's hash of a tuple of three ints
(CPython int and tuple hashes do not vary per run or process). -/
def pyHash3 : Coord → Nat
  | (a, b, c) =>
    (((a.emod (2 ^ 61)).toNat * 1000003 + (b.emod (2 ^ 61)).toNat) * 1000003 +
      (c.emod (2 ^ 61)).toNat) % 2 ^ 64

/-- random.seed(n): reinitializes the global generator purely from n; the
previous generator state is discarded, which is why the first argument is
unused. -/
def pySeed (_g : Nat) (n : Nat) : Nat := rngNext n

/-- The decoded default ocean color 4488ff: (68/255, 136/255, 255/255). -/
def defaultOceanColor : ℚ × ℚ × ℚ := (68 / 255, 136 / 255, 1)

/-- A procedurally generated planet: the state-relevant outcome of the
Planet constructed in Universe.generate_chunk (its color is the decoded
default ocean hex; orbitAngle is the random draw of Planet.__init__ in
units of 2π). -/
structure GenPlanet where
  pos : Coord
  radius : Int
  color : ℚ × ℚ × ℚ
  orbitAngleUnit : ℚ
deriving DecidableEq

/-- One iteration of the body loop of Universe.generate_chunk: three
coordinate draws, the radius draw, the three discarded color-tuple draws,
and the orbitAngle draw made inside Planet.__init__; all advance the one
global stream. -/
def drawPlanet (c : Coord) (s : Nat) : Nat × GenPlanet :=
  let r1 := randint s 0 chunk_size
  let px := c.1 * chunk_size + r1.2
  let r2 := randint r1.1 0 chunk_size
  let py := c.2.1 * chunk_size + r2.2
  let r3 := randint r2.1 0 chunk_size
  let pz := c.2.2 * chunk_size + r3.2
  let r4 := randint r3.1 80 250
  let r5 := randfloat r4.1
  let r6 := randfloat r5.1
  let r7 := randfloat r6.1
  let r8 := randfloat r7.1
  (r8.1, ⟨(px, py, pz), r4.2, defaultOceanColor, r8.2⟩)

/-- The body loop run n times. -/
def drawPlanets (c : Coord) (s : Nat) : Nat → Nat × List GenPlanet
  | 0 => (s, [])
  | n + 1 =>
    let r := drawPlanet c s
    let rest := drawPlanets c r.1 n
    (rest.1, r.2 :: rest.2)

/-- The generation body of Universe.generate_chunk once the cache misses:
re-seed the global stream from hash(coord), draw the planet count in
[0, 2], then the planets. The incoming stream state g is overwritten by
the seeding. -/
def generateBodies (g : Nat) (c : Coord) : Nat × List GenPlanet :=
  let s0 := pySeed g (pyHash3 c)
  let r := randint s0 0 2
  drawPlanets c r.1 r.2.toNat

/-- The mutable state of class Universe plus the global RNG, instrumented
with a log of the coordinates that were actually generated (one entry per
execution of the generation body). -/
structure UState where
  cache : List (Coord × List GenPlanet)
  genLog : List Coord
  rng : Nat

/-- Python dict lookup on the insertion-ordered association list. -/
def lookupChunk : List (Coord × List GenPlanet) → Coord → Option (List GenPlanet)
  | [], _ => none
  | (k, v) :: rest, c => if k = c then some v else lookupChunk rest c

/-- Universe.generate_chunk: return unchanged when the key is cached, else
run the generation body and insert the new entry. -/
def generate_chunk (st : UState) (c : Coord) : UState :=
  match lookupChunk st.cache c with
  | some _ => st
  | none =>
      let r := generateBodies st.rng c
      { cache := st.cache ++ [(c, r.2)]
        genLog := st.genLog ++ [c]
        rng := r.1 }

/-- The 3x3x3 window of Universe.get_active_planets, in loop order. -/
def window (c : Coord) : List Coord :=
  [c.1 - 1, c.1, c.1 + 1].flatMap fun x =>
    [c.2.1 - 1, c.2.1, c.2.1 + 1].flatMap fun y =>
      [c.2.2 - 1, c.2.2, c.2.2 + 1].map fun z => (x, y, z)

/-- One iteration of the loop of Universe.get_active_planets: generate the
chunk (a no-op on cached chunks), then extend the active list with the
chunk's stored bodies. -/
def activeStep (r : List GenPlanet × UState) (c : Coord) : List GenPlanet × UState :=
  let st1 := generate_chunk r.2 c
  (r.1 ++ (lookupChunk st1.cache c).getD [], st1)

/-- Universe.get_active_planets, taking the observer's chunk coordinate
(the coordinate is obtained from the position by get_chunk, claim C2). -/
def get_active_planets (st : UState) (c : Coord) : List GenPlanet × UState :=
  (window c).foldl activeStep ([], st)

/-- The state left by one get_active_planets call. -/
def queryState (st : UState) (c : Coord) : UState :=
  (get_active_planets st c).2

/-- A sequence of get_active_planets calls, keeping only the state. -/
def runQueries (st : UState) (qs : List Coord) : UState :=
  qs.foldl queryState st

/-- The fresh Universe of Universe.__init__ plus an arbitrary initial
global RNG state. -/
def initUState (g : Nat) : UState := ⟨[], [], g⟩

/-- The cache invariant: the generation log has no duplicates and every
logged coordinate is cached. -/
def GoodState (s : UState) : Prop :=
  s.genLog.Nodup ∧ ∀ c ∈ s.genLog, (lookupChunk s.cache c).isSome

/-- The active list as read back from a fixed state. -/
def activeOf (st : UState) : List Coord → List GenPlanet
  | [] => []
  | c :: rest => (lookupChunk st.cache c).getD [] ++ activeOf st rest

/-! ### Editor-zip import: color decoding, parent resolution, loaders -/

/-- A hexadecimal digit as accepted per character by int(s, 16). -/
def isHexDigit (ch : Char) : Bool :=
  ch.isDigit || (Char.ofNat 97 ≤ ch && ch ≤ Char.ofNat 102) ||
    (Char.ofNat 65 ≤ ch && ch ≤ Char.ofNat 70)

/-- The value of a hexadecimal digit. -/
def hexDigitVal (ch : Char) : Nat :=
  if ch.isDigit then ch.toNat - 48
  else if Char.ofNat 97 ≤ ch then ch.toNat - 97 + 10
  else ch.toNat - 65 + 10

/-- An ASCII whitespace character as stripped by int(s, base): space, tab,
line feed, vertical tab, form feed, carriage return. -/
def isPySpace (ch : Char) : Bool :=
  ch = Char.ofNat 32 || ch = Char.ofNat 9 || ch = Char.ofNat 10 ||
    ch = Char.ofNat 11 || ch = Char.ofNat 12 || ch = Char.ofNat 13

/-- The digit run of int(s, 16) after the first digit: hex digits with
single underscores allowed only between digits (no doubled, no trailing
underscore). afterUnd records whether the previous character was an
underscore. -/
def hexTail (acc : Nat) (afterUnd : Bool) : List Char → Option Nat
  | [] => if afterUnd then none else some acc
  | ch :: rest =>
      if isHexDigit ch then hexTail (acc * 16 + hexDigitVal ch) false rest
      else if ch = Char.ofNat 95 then
        if afterUnd then none else hexTail acc true rest
      else none

/-- A nonempty digit run, which must start with a hex digit. -/
def hexDigitsVal : List Char → Option Nat
  | [] => none
  | ch :: rest => if isHexDigit ch then hexTail (hexDigitVal ch) false rest else none

/-- Python int(s, 16) for strings over the ASCII range: strip ASCII
whitespace at both ends, one optional sign, an optional 0x/0X prefix (one
underscore may follow the prefix), then hex digits with single
underscores between digits; anything else raises ValueError (none here).
CPython additionally accepts Unicode decimal digits and strips Unicode
whitespace code points; every string a theorem below evaluates this
function on is ASCII, where the two agree. -/
def pyInt16 (cs : List Char) : Option Int :=
  let t := ((cs.dropWhile isPySpace).reverse.dropWhile isPySpace).reverse
  let s : Int × List Char :=
    match t with
    | ch :: rest =>
        if ch = Char.ofNat 43 then (1, rest)
        else if ch = Char.ofNat 45 then (-1, rest)
        else (1, t)
    | [] => (1, t)
  let digits : Option Nat :=
    match s.2 with
    | c0 :: c1 :: rest =>
        if c0 = Char.ofNat 48 && (c1 = Char.ofNat 120 || c1 = Char.ofNat 88) then
          match rest with
          | c2 :: rest2 =>
              if c2 = Char.ofNat 95 then hexDigitsVal rest2 else hexDigitsVal rest
          | [] => none
        else hexDigitsVal s.2
    | _ => hexDigitsVal s.2
  digits.map fun n => s.1 * (n : Int)

/-- The colors dict of a planet manifest: only the ocean entry is read. -/
structure ColorsDict where
  ocean : Option (List Char)

/-- The ocean hex string actually used: data.get(colors, empty dict) then
c.get(ocean, default). -/
def oceanOf (colors : Option ColorsDict) : Option (List Char) :=
  (colors.getD ⟨none⟩).ocean

/-- The color computation of Planet.__init__ (lines 51-57): slice the hex
string as [1:3], [3:5], [5:7], decode each slice with int(_, 16), divide
by 255; a failing decode propagates (ValueError), it is not defaulted. -/
def planetColor (colors : Option ColorsDict) : Option (ℚ × ℚ × ℚ) :=
  let hex := (oceanOf colors).getD ("#4488ff".toList)
  match pyInt16 ((hex.drop 1).take 2), pyInt16 ((hex.drop 3).take 2),
      pyInt16 ((hex.drop 5).take 2) with
  | some r, some g, some b => some ((r : ℚ) / 255, (g : ℚ) / 255, (b : ℚ) / 255)
  | _, _, _ => none

/-- The parent resolution of load_solar_system (lines 354-355) over the n
bodies added so far: assign a parent only when parentId is present and
< n; indexing follows Python list semantics, so a negative index in
[-n, -1] resolves from the end and one below -n raises IndexError. -/
def resolveParentIdx : Option Int → Nat → Except String (Option Nat)
  | none, _ => Except.ok none
  | some i, n =>
      if i < (n : Int) then
        if 0 ≤ i then Except.ok (some i.toNat)
        else if 0 ≤ (n : Int) + i then Except.ok (some ((n : Int) + i).toNat)
        else Except.error "IndexError"
      else Except.ok none

/-- The fields of planet_data.json that reach Planet.__init__. -/
structure PlanetData where
  seed : Option String
  ptype : Option String
  radius : Option ℝ
  colors : Option ColorsDict

/-- One entry of the bodies list of system_data.json, together with the
zip-level facts about its referenced file: filePresent embeds the
namelist check, planetData is none when the nested zip or its json cannot
be read (those reads raise). -/
structure BodyInfo where
  filePresent : Bool
  planetData : Option PlanetData
  orbitDistance : Option ℝ
  orbitSpeed : Option ℝ
  parentId : Option Int

/-- system_data.json. -/
structure SystemManifest where
  name : Option String
  bodies : List BodyInfo

/-- One iteration of the body loop of load_solar_system (lines 344-356):
skip silently when the file is missing; fail on an unreadable nested
archive, on a malformed color (Planet.__init__ raises) or on a bad
negative parent index; otherwise add the built body. The orbitAngle drawn
by Planet.__init__ is irrelevant to every claim and is fixed at 0 here. -/
noncomputable def buildSystemBody (sys : SolarSystem) (info : BodyInfo) :
    Except String SolarSystem :=
  if info.filePresent = false then Except.ok sys
  else
    match info.planetData with
    | none => Except.error "BadZipFile"
    | some pd =>
        match planetColor pd.colors with
        | none => Except.error "ValueError"
        | some _ =>
            match resolveParentIdx info.parentId sys.bodies.length with
            | Except.error e => Except.error e
            | Except.ok par =>
                Except.ok (sys.add_body
                  { name := pd.seed.getD "Unknown"
                    type := pd.ptype.getD "planet"
                    pos := sys.center_pos.add ⟨info.orbitDistance.getD 300, 0, 0⟩
                    radius := pd.radius.getD 100
                    orbitDistance := info.orbitDistance.getD 0
                    orbitSpeed := info.orbitSpeed.getD 0.2
                    orbitAngle := 0
                    parent := par })

/-- The body loop of load_solar_system: an exception aborts the rest. -/
noncomputable def buildBodies (sys : SolarSystem) :
    List BodyInfo → Except String SolarSystem
  | [] => Except.ok sys
  | info :: rest =>
      match buildSystemBody sys info with
      | Except.ok sys1 => buildBodies sys1 rest
      | Except.error e => Except.error e

/-- The fresh group of load_solar_system before its body loop. -/
def initSystem (m : SystemManifest) (playerPos : Vec3) : SolarSystem :=
  { name := m.name.getD "Imported System", bodies := [], center_pos := playerPos }

/-- load_solar_system (lines 339-359): build the group from the manifest;
append it to the live list only after the loop finishes; an exception
leaves the list untouched and becomes the status message of the caller's
except handler. -/
noncomputable def load_solar_system (m : SystemManifest) (playerPos : Vec3)
    (systems : List SolarSystem) : List SolarSystem × Option String :=
  match buildBodies (initSystem m playerPos) m.bodies with
  | Except.ok sys => (systems ++ [sys], none)
  | Except.error e => (systems, some e)

/-- One inline body of a galaxy system. -/
structure GalaxyBodyInfo where
  planetData : PlanetData
  orbitDistance : Option ℝ
  orbitSpeed : Option ℝ

/-- One system of galaxy_data.json. -/
structure GalaxySys where
  name : Option String
  bodies : List GalaxyBodyInfo

/-- galaxy_data.json. -/
structure GalaxyManifest where
  name : Option String
  systems : List GalaxySys

/-- One iteration of the body loop of load_galaxy (lines 366-371): a
malformed color makes Planet.__init__ raise; otherwise the body (never
given a parent here) is added. -/
noncomputable def buildGalaxyBody (sys : SolarSystem) (info : GalaxyBodyInfo) :
    Except String SolarSystem :=
  match planetColor info.planetData.colors with
  | none => Except.error "ValueError"
  | some _ =>
      Except.ok (sys.add_body
        { name := info.planetData.seed.getD "Unknown"
          type := info.planetData.ptype.getD "planet"
          pos := sys.center_pos.add ⟨info.orbitDistance.getD 0, 0, 0⟩
          radius := info.planetData.radius.getD 100
          orbitDistance := info.orbitDistance.getD 0
          orbitSpeed := info.orbitSpeed.getD 0.2
          orbitAngle := 0
          parent := none })

noncomputable def buildGalaxyBodies (sys : SolarSystem) :
    List GalaxyBodyInfo → Except String SolarSystem
  | [] => Except.ok sys
  | info :: rest =>
      match buildGalaxyBody sys info with
      | Except.ok sys1 => buildGalaxyBodies sys1 rest
      | Except.error e => Except.error e

/-- One fully built galaxy system: fresh group at player position plus the
random offset (the offset is a parameter here), then the whole body loop. -/
noncomputable def buildGalaxySystem (playerPos off : Vec3) (sd : GalaxySys) :
    Except String SolarSystem :=
  buildGalaxyBodies
    { name := sd.name.getD "Galaxy System", bodies := [], center_pos := playerPos.add off }
    sd.bodies

/-- The system loop of load_galaxy: each group is appended right after its
own body loop finishes; an exception keeps the groups appended so far and
becomes the status message. offs k is the random center offset drawn for
the k-th system. -/
noncomputable def galaxyLoop (playerPos : Vec3) (offs : Nat → Vec3) :
    Nat → List SolarSystem → List GalaxySys → List SolarSystem × Option String
  | _, systems, [] => (systems, none)
  | k, systems, sd :: rest =>
      match buildGalaxySystem playerPos (offs k) sd with
      | Except.ok sys => galaxyLoop playerPos offs (k + 1) (systems ++ [sys]) rest
      | Except.error e => (systems, some e)

/-- load_galaxy (lines 361-373): at most the first 4 systems are imported. -/
noncomputable def load_galaxy (g : GalaxyManifest) (playerPos : Vec3)
    (offs : Nat → Vec3) (systems : List SolarSystem) :
    List SolarSystem × Option String :=
  galaxyLoop playerPos offs 0 systems (g.systems.take 4)

/-- load_single_planet (lines 329-337): pd is none when planet_data.json
cannot be read; off is the random placement offset; a failure leaves the
live list untouched. -/
noncomputable def load_single_planet (pd : Option PlanetData) (playerPos off : Vec3)
    (systems : List SolarSystem) : List SolarSystem × Option String :=
  match pd with
  | none => (systems, some "json error")
  | some d =>
      match planetColor d.colors with
      | none => (systems, some "ValueError")
      | some _ =>
          let planet : Body :=
            { name := d.seed.getD "Unknown"
              type := d.ptype.getD "planet"
              pos := playerPos.add off
              radius := d.radius.getD 100
              orbitDistance := 0
              orbitSpeed := 0.2
              orbitAngle := 0
              parent := none }
          (systems ++ [SolarSystem.add_body ⟨planet.name, [], ⟨0, 0, 0⟩⟩ planet], none)

/-- A galaxy manifest whose second system holds a body with a malformed
ocean color, used by closed theorems. -/
def galMixed : GalaxyManifest :=
  ⟨some "G",
    [⟨some "S1", []⟩,
     ⟨some "S2", [⟨⟨none, none, none, some ⟨some ("#zz".toList)⟩⟩, none, none⟩]⟩]⟩

/-- A system manifest whose only body carries parentId -1, used by closed
theorems. -/
def sysNegParent : SystemManifest :=
  ⟨none, [⟨true, some ⟨none, none, none, none⟩, none, none, some (-1)⟩]⟩

/-! ## Theorems -/

theorem Vec3.copy_eq (v : Vec3) : v.copy = v := rfl

theorem addBodies_nil (s : SolarSystem) : addBodies s [] = s := rfl

theorem addBodies_cons (s : SolarSystem) (b : Body) (bs : List Body) :
    addBodies s (b :: bs) = addBodies (s.add_body b) bs := rfl

/-- C1 counterexample: adding a second sun does change the anchor, so after
adding suns at (0,0,0) then (1,2,3) the anchor is (1,2,3), not the first
sun's position (0,0,0). -/
theorem second_sun_moves_anchor :
    ((emptySystem.add_body (mkBody "sun" ⟨0, 0, 0⟩ 100)).add_body
        (mkBody "sun" ⟨1, 2, 3⟩ 100)).center_pos =
      (⟨1, 2, 3⟩ : Vec3) ∧
    (mkBody "sun" (⟨0, 0, 0⟩ : Vec3) 100).pos = (⟨0, 0, 0⟩ : Vec3) ∧
    (⟨1, 2, 3⟩ : Vec3) ≠ (⟨0, 0, 0⟩ : Vec3) := by
  refine ⟨?_, rfl, ?_⟩
  · simp [emptySystem, SolarSystem.add_body, mkBody, Vec3.copy]
  · intro h
    have hx : (1 : ℝ) = 0 := congrArg Vec3.x h
    norm_num at hx

/-- C1 amended: after any sequence of add_body calls the anchor equals the
position of the LAST sun-type body added (each sun overwrites the anchor);
it keeps its previous value when no sun was added. -/
theorem anchor_eq_last_sun (s : SolarSystem) (bs : List Body) :
    (addBodies s bs).center_pos = lastSunPos s.center_pos bs := by
  induction bs generalizing s with
  | nil => rfl
  | cons b bs ih =>
      rw [addBodies_cons, ih, lastSunPos]
      by_cases h : b.type = "sun" <;>
        simp [SolarSystem.add_body, h, Vec3.copy_eq]

theorem floor_div_chunk {x : ℝ} {a : Int}
    (h1 : (a : ℝ) * 2000 ≤ x) (h2 : x < ((a : ℝ) + 1) * 2000) :
    ⌊x / ((chunk_size : Int) : ℝ)⌋ = a := by
  have hc : ((chunk_size : Int) : ℝ) = 2000 := by norm_num [chunk_size]
  rw [hc, Int.floor_eq_iff]
  constructor
  · rw [le_div_iff₀ (by norm_num : (0 : ℝ) < 2000)]
    exact h1
  · rw [div_lt_iff₀ (by norm_num : (0 : ℝ) < 2000)]
    linarith

/-- C2: get_chunk uses floor semantics on every axis: any position inside
the half-open cell of (a,b,c) maps to chunk (a,b,c) (hence translation
inside a cell never changes the chunk), crossing a cell boundary on the x
axis changes exactly the x chunk coordinate by one, and x = -1 maps to
chunk x = -1, not 0. -/
theorem chunk_floor_semantics :
    (∀ p a b c, inChunkCell a b c p → get_chunk p = (a, b, c)) ∧
    (∀ p q a b c, inChunkCell a b c p → inChunkCell (a + 1) b c q →
      (get_chunk q).1 = (get_chunk p).1 + 1 ∧ (get_chunk q).2 = (get_chunk p).2) ∧
    get_chunk ⟨-1, 0, 0⟩ = (-1, 0, 0) := by
  have key : ∀ p a b c, inChunkCell a b c p → get_chunk p = (a, b, c) := by
    intro p a b c h
    obtain ⟨hx1, hx2, hy1, hy2, hz1, hz2⟩ := h
    unfold get_chunk
    rw [floor_div_chunk hx1 hx2, floor_div_chunk hy1 hy2, floor_div_chunk hz1 hz2]
  refine ⟨key, ?_, ?_⟩
  · intro p q a b c hp hq
    rw [key p a b c hp, key q (a + 1) b c hq]
    exact ⟨rfl, rfl⟩
  · have : inChunkCell (-1) 0 0 ⟨-1, 0, 0⟩ := by
      unfold inChunkCell
      norm_num
    exact key _ _ _ _ this

/-- C2 witness: a position with x on the last coordinate of cell 0 and
negative y maps by floor semantics, and moving x into the next cell bumps
exactly the x chunk coordinate. -/
theorem chunk_floor_semantics_witness :
    get_chunk ⟨1999, -1, 4000⟩ = (0, -1, 2) ∧
    (get_chunk ⟨2500, 0, 0⟩).1 = (get_chunk ⟨1999, 0, 0⟩).1 + 1 ∧
    (get_chunk ⟨2500, 0, 0⟩).2 = (get_chunk ⟨1999, 0, 0⟩).2 := by
  constructor
  · exact chunk_floor_semantics.1 ⟨1999, -1, 4000⟩ 0 (-1) 2
      (by unfold inChunkCell; norm_num)
  · exact chunk_floor_semantics.2.1 ⟨1999, 0, 0⟩ ⟨2500, 0, 0⟩ 0 0 0
      (by unfold inChunkCell; norm_num) (by unfold inChunkCell; norm_num)

/-- C6 counterexample: update_orbit writes only x and z; for a body at
height y = 50 orbiting a parent at height 0 the resulting position keeps
y = 50, while the spec formula parent + (cos*d, 0, sin*d) has y = 0, so
the resulting position differs from the spec formula. -/
theorem orbit_y_not_set :
    (moonAbove.update_orbit 1 ⟨0, 0, 0⟩).pos.y = 50 ∧
    (specOrbitPos ⟨0, 0, 0⟩ ((moonAbove.update_orbit 1 ⟨0, 0, 0⟩).orbitAngle)
        moonAbove.orbitDistance).y = 0 ∧
    (moonAbove.update_orbit 1 ⟨0, 0, 0⟩).pos ≠
      specOrbitPos ⟨0, 0, 0⟩ ((moonAbove.update_orbit 1 ⟨0, 0, 0⟩).orbitAngle)
        moonAbove.orbitDistance := by
  have hcond : (0.1 : ℝ) < moonAbove.orbitDistance ∧ moonAbove.parent ≠ none := by
    constructor
    · norm_num [moonAbove]
    · simp [moonAbove]
  have hup : moonAbove.update_orbit 1 ⟨0, 0, 0⟩ =
      { moonAbove with
        orbitAngle := moonAbove.orbitAngle + moonAbove.orbitSpeed * 1 * 0.3
        pos := ⟨(0 : ℝ) + Real.cos (moonAbove.orbitAngle + moonAbove.orbitSpeed * 1 * 0.3) *
                  moonAbove.orbitDistance, moonAbove.pos.y,
                (0 : ℝ) + Real.sin (moonAbove.orbitAngle + moonAbove.orbitSpeed * 1 * 0.3) *
                  moonAbove.orbitDistance⟩ } := by
    unfold Body.update_orbit
    rw [if_pos hcond]
  refine ⟨?_, ?_, ?_⟩
  · rw [hup]; rfl
  · simp [specOrbitPos, Vec3.add]
  · intro h
    have hy := congrArg Vec3.y h
    rw [hup] at hy
    simp [specOrbitPos, Vec3.add, moonAbove] at hy

/-- C6 amended: with orbitDistance > 0.1 and a parent set, update_orbit
increments the angle by orbitSpeed * dt * 0.3 and sets x and z from the
parent position while leaving y unchanged; the result agrees with the
spec's three-component formula exactly when the body already sits at the
parent's height; with orbitDistance ≤ 0.1 or no parent the body does not
move. -/
theorem update_orbit_xz_only (b : Body) (dt : ℝ) (pp : Vec3) :
    (0.1 < b.orbitDistance → b.parent ≠ none →
      b.update_orbit dt pp =
        { b with
          orbitAngle := b.orbitAngle + b.orbitSpeed * dt * 0.3
          pos := ⟨pp.x + Real.cos (b.orbitAngle + b.orbitSpeed * dt * 0.3) * b.orbitDistance,
                  b.pos.y,
                  pp.z + Real.sin (b.orbitAngle + b.orbitSpeed * dt * 0.3) * b.orbitDistance⟩ }) ∧
    (b.pos.y = pp.y → 0.1 < b.orbitDistance → b.parent ≠ none →
      (b.update_orbit dt pp).pos =
        specOrbitPos pp (b.orbitAngle + b.orbitSpeed * dt * 0.3) b.orbitDistance) ∧
    (b.orbitDistance ≤ 0.1 ∨ b.parent = none → b.update_orbit dt pp = b) := by
  refine ⟨?_, ?_, ?_⟩
  · intro h1 h2
    unfold Body.update_orbit
    rw [if_pos ⟨h1, h2⟩]
  · intro hy h1 h2
    unfold Body.update_orbit
    rw [if_pos ⟨h1, h2⟩]
    simp only [specOrbitPos, Vec3.add]
    ext <;> simp [hy]
  · intro h
    unfold Body.update_orbit
    rw [if_neg]
    rcases h with h | h
    · exact fun hc => absurd hc.1 (not_lt.mpr h)
    · exact fun hc => hc.2 h

/-- C6 amended witness: concrete applications of all three parts. -/
theorem update_orbit_xz_only_witness :
    (moonLevel.update_orbit 1 ⟨0, 0, 0⟩).pos.y = moonLevel.pos.y ∧
    (moonLevel.update_orbit 1 ⟨0, 0, 0⟩).pos =
      specOrbitPos ⟨0, 0, 0⟩ (0 + 1 * 1 * 0.3) 10 ∧
    lonePlanet.update_orbit 1 ⟨0, 0, 0⟩ = lonePlanet := by
  have h1 := (update_orbit_xz_only moonLevel 1 ⟨0, 0, 0⟩).1
    (by norm_num [moonLevel]) (by simp [moonLevel])
  have h2 := (update_orbit_xz_only moonLevel 1 ⟨0, 0, 0⟩).2.1
    (by norm_num [moonLevel]) (by norm_num [moonLevel]) (by simp [moonLevel])
  have h3 := (update_orbit_xz_only lonePlanet 1 ⟨0, 0, 0⟩).2.2
    (Or.inr (by simp [lonePlanet]))
  refine ⟨?_, ?_, h3⟩
  · rw [h1]
  · rw [h2]
    norm_num [moonLevel]

theorem mag_axis_x (a : ℝ) : Vec3.mag ⟨a, 0, 0⟩ = |a| := by
  unfold Vec3.mag
  norm_num [Real.sqrt_sq_eq_abs]

theorem normalize_pos_axis {a : ℝ} (h : 0 < a) :
    Vec3.normalize ⟨a, 0, 0⟩ = ⟨1, 0, 0⟩ := by
  unfold Vec3.normalize
  rw [mag_axis_x, abs_of_pos h, if_pos h]
  ext <;> simp [div_self h.ne']

theorem normalize_neg_axis {a : ℝ} (h : a < 0) :
    Vec3.normalize ⟨a, 0, 0⟩ = ⟨-1, 0, 0⟩ := by
  unfold Vec3.normalize
  rw [mag_axis_x, abs_of_neg h, if_pos (by linarith)]
  have hne : -a ≠ 0 := by linarith
  ext <;> simp [div_eq_iff hne]

theorem dist_axis_x (u v : ℝ) : Vec3.dist ⟨u, 0, 0⟩ ⟨v, 0, 0⟩ = |u - v| := by
  unfold Vec3.dist
  have hsub : Vec3.sub ⟨u, 0, 0⟩ ⟨v, 0, 0⟩ = ⟨u - v, 0, 0⟩ := by
    ext <;> norm_num [Vec3.sub]
  rw [hsub, mag_axis_x]

/-- C5: one pass of the landing/collision check against a body closer than
radius + 23 to a Flying craft: with |speed| < 11 the craft lands on that
body (speed and velocity zeroed, position snapped to body.pos +
normalize(craft.pos - body.pos) * (radius + 7), pitch -82); with
|speed| ≥ 11 it bounces (position moved back by vel * 2, speed damped by
0.3) and stays un-landed. -/
theorem collide_land_or_bounce (c : Craft) (p : Body)
    (hd : c.pos.dist p.pos < p.radius + 23) (hf : c.landed_on = none) :
    (|c.speed| < 11 →
      collideOne c p =
        { c with
          landed_on := some p
          speed := 0
          vel := ⟨0, 0, 0⟩
          pos := snapPos c p
          pitch := -82 }) ∧
    (11 ≤ |c.speed| →
      collideOne c p =
        { c with
          ui_message := "WARNING: Too fast! Bouncing off atmosphere!"
          pos := c.pos.sub (c.vel.mul 2)
          speed := c.speed * 0.3 } ∧
      (collideOne c p).landed_on = none) := by
  constructor
  · intro hs
    unfold collideOne
    rw [if_pos hd, if_pos hs]
  · intro hs
    have hns : ¬|c.speed| < 11 := not_lt.mpr hs
    have he : collideOne c p =
        { c with
          ui_message := "WARNING: Too fast! Bouncing off atmosphere!"
          pos := c.pos.sub (c.vel.mul 2)
          speed := c.speed * 0.3 } := by
      unfold collideOne
      rw [if_pos hd, if_neg hns]
    exact ⟨he, by rw [he]; exact hf⟩

/-- C5 witness: at distance 115 from a radius-100 body, speed 5 lands
(snapping to x = 107 on the axis) and speed 20 bounces. -/
theorem collide_land_or_bounce_witness :
    (collideOne craftSlow bodyBig).landed_on = some bodyBig ∧
    (collideOne craftSlow bodyBig).pos = ⟨107, 0, 0⟩ ∧
    (collideOne craftSlow bodyBig).speed = 0 ∧
    (collideOne craftFast bodyBig).landed_on = none ∧
    (collideOne craftFast bodyBig).pos = craftFast.pos.sub (craftFast.vel.mul 2) ∧
    (collideOne craftFast bodyBig).speed = craftFast.speed * 0.3 := by
  have habs : |(115 : ℝ) - 0| = 115 := by
    rw [abs_of_pos (by norm_num : (0 : ℝ) < 115 - 0)]
    norm_num
  have hdS : craftSlow.pos.dist bodyBig.pos < bodyBig.radius + 23 := by
    show Vec3.dist ⟨115, 0, 0⟩ ⟨0, 0, 0⟩ < 100 + 23
    rw [dist_axis_x, habs]
    norm_num
  have hdF : craftFast.pos.dist bodyBig.pos < bodyBig.radius + 23 := by
    show Vec3.dist ⟨115, 0, 0⟩ ⟨0, 0, 0⟩ < 100 + 23
    rw [dist_axis_x, habs]
    norm_num
  have h1 := (collide_land_or_bounce craftSlow bodyBig hdS rfl).1
    (by show |(5 : ℝ)| < 11; rw [abs_of_pos] <;> norm_num)
  have h2 := (collide_land_or_bounce craftFast bodyBig hdF rfl).2
    (by show (11 : ℝ) ≤ |20|; rw [abs_of_pos] <;> norm_num)
  have hsnap : snapPos craftSlow bodyBig = ⟨107, 0, 0⟩ := by
    unfold snapPos
    have hsub : craftSlow.pos.sub bodyBig.pos = (⟨115, 0, 0⟩ : Vec3) := by
      ext <;> norm_num [craftSlow, bodyBig, mkBody, Vec3.sub]
    rw [hsub, normalize_pos_axis (by norm_num : (0 : ℝ) < 115)]
    ext <;> norm_num [Vec3.mul, Vec3.add, bodyBig, mkBody]
  refine ⟨?_, ?_, ?_, ?_, ?_, ?_⟩
  · rw [h1]
  · rw [h1]
    exact hsnap
  · rw [h1]
  · exact h2.2
  · rw [h2.1]
  · rw [h2.1]

/-- C10: the collision loop visits the whole list with no early exit
(collideAll over an appended list is the composition), so when a second
body also satisfies the landing condition at the position snapped by the
first landing, the craft ends the tick landed on the LAST such body, with
the position re-snapped to it. -/
theorem landing_last_body_wins (c : Craft) (b1 b2 : Body)
    (h1 : c.pos.dist b1.pos < b1.radius + 23) (hs : |c.speed| < 11)
    (h2 : (snapPos c b1).dist b2.pos < b2.radius + 23) :
    (∀ c0 ps qs, collideAll c0 (ps ++ qs) = collideAll (collideAll c0 ps) qs) ∧
    (collideAll c [b1, b2]).landed_on = some b2 ∧
    (collideAll c [b1, b2]).pos =
      b2.pos.add ((((snapPos c b1).sub b2.pos).normalize).mul (b2.radius + 7)) := by
  have happ : ∀ c0 ps qs, collideAll c0 (ps ++ qs) = collideAll (collideAll c0 ps) qs := by
    intro c0 ps qs
    unfold collideAll
    rw [List.foldl_append]
  have e1 : collideOne c b1 =
      { c with
        landed_on := some b1
        speed := 0
        vel := ⟨0, 0, 0⟩
        pos := snapPos c b1
        pitch := -82 } := by
    unfold collideOne
    rw [if_pos h1, if_pos hs]
  have key : collideAll c [b1, b2] = collideOne (collideOne c b1) b2 := rfl
  have e2 : collideOne (collideOne c b1) b2 =
      { c with
        landed_on := some b2
        speed := 0
        vel := ⟨0, 0, 0⟩
        pos := b2.pos.add ((((snapPos c b1).sub b2.pos).normalize).mul (b2.radius + 7))
        pitch := -82 } := by
    rw [e1]
    unfold collideOne
    dsimp only
    rw [if_pos h2, if_pos (by rw [abs_of_nonneg le_rfl]; norm_num : |(0 : ℝ)| < 11)]
    rfl
  rw [key, e2]
  exact ⟨happ, rfl, rfl⟩

/-- C10 witness: a slow craft at x = 110 between a radius-100 body at the
origin and a radius-100 body at x = 214 first snaps to x = 107, which is
also within landing range of the second body, so it ends landed on the
second body. -/
theorem landing_last_body_wins_witness :
    (collideAll craftTwo [bodyBig, bodyFar]).landed_on = some bodyFar ∧
    (collideAll craftTwo [bodyBig, bodyFar]).pos = ⟨107, 0, 0⟩ := by
  have hsnap : snapPos craftTwo bodyBig = ⟨107, 0, 0⟩ := by
    unfold snapPos
    have hsub : craftTwo.pos.sub bodyBig.pos = (⟨110, 0, 0⟩ : Vec3) := by
      ext <;> norm_num [craftTwo, bodyBig, mkBody, Vec3.sub]
    rw [hsub, normalize_pos_axis (by norm_num : (0 : ℝ) < 110)]
    ext <;> norm_num [Vec3.mul, Vec3.add, bodyBig, mkBody]
  have h1 : craftTwo.pos.dist bodyBig.pos < bodyBig.radius + 23 := by
    show Vec3.dist ⟨110, 0, 0⟩ ⟨0, 0, 0⟩ < 100 + 23
    rw [dist_axis_x, abs_of_pos (by norm_num : (0 : ℝ) < 110 - 0)]
    norm_num
  have h2 : (snapPos craftTwo bodyBig).dist bodyFar.pos < bodyFar.radius + 23 := by
    rw [hsnap]
    show Vec3.dist ⟨107, 0, 0⟩ ⟨214, 0, 0⟩ < 100 + 23
    rw [dist_axis_x, abs_of_neg (by norm_num : (107 : ℝ) - 214 < 0)]
    norm_num
  have hmain := landing_last_body_wins craftTwo bodyBig bodyFar h1
    (by show |(5 : ℝ)| < 11; rw [abs_of_pos] <;> norm_num) h2
  refine ⟨hmain.2.1, ?_⟩
  rw [hmain.2.2, hsnap]
  have hsub2 : Vec3.sub ⟨107, 0, 0⟩ bodyFar.pos = (⟨-107, 0, 0⟩ : Vec3) := by
    ext <;> norm_num [bodyFar, mkBody, Vec3.sub]
  rw [hsub2, normalize_neg_axis (by norm_num : (-107 : ℝ) < 0)]
  ext <;> norm_num [Vec3.mul, Vec3.add, bodyFar, mkBody]

theorem lookupChunk_append_of_some {l l2 : List (Coord × List GenPlanet)} {c : Coord}
    {v : List GenPlanet} (h : lookupChunk l c = some v) :
    lookupChunk (l ++ l2) c = some v := by
  induction l with
  | nil => simp [lookupChunk] at h
  | cons kv rest ih =>
      obtain ⟨k, w⟩ := kv
      by_cases hk : k = c
      · simpa [lookupChunk, hk] using h
      · simp only [lookupChunk, if_neg hk] at h
        simpa [lookupChunk, hk] using ih h

theorem lookupChunk_append_of_none {l : List (Coord × List GenPlanet)} {c : Coord}
    (h : lookupChunk l c = none) (v : List GenPlanet) :
    lookupChunk (l ++ [(c, v)]) c = some v := by
  induction l with
  | nil => simp [lookupChunk]
  | cons kv rest ih =>
      obtain ⟨k, w⟩ := kv
      by_cases hk : k = c
      · simp [lookupChunk, hk] at h
      · simp only [lookupChunk, if_neg hk] at h
        simpa [lookupChunk, hk] using ih h

theorem generate_chunk_cached {st : UState} {c : Coord}
    (h : (lookupChunk st.cache c).isSome) : generate_chunk st c = st := by
  obtain ⟨v, hv⟩ := Option.isSome_iff_exists.mp h
  unfold generate_chunk
  rw [hv]

theorem generate_chunk_miss {st : UState} {c : Coord}
    (h : lookupChunk st.cache c = none) :
    generate_chunk st c =
      { cache := st.cache ++ [(c, (generateBodies st.rng c).2)]
        genLog := st.genLog ++ [c]
        rng := (generateBodies st.rng c).1 } := by
  unfold generate_chunk
  rw [h]

theorem generate_chunk_self_some (st : UState) (c : Coord) :
    (lookupChunk (generate_chunk st c).cache c).isSome := by
  by_cases h : (lookupChunk st.cache c).isSome
  · rw [generate_chunk_cached h]
    exact h
  · have hn : lookupChunk st.cache c = none := Option.not_isSome_iff_eq_none.mp h
    rw [generate_chunk_miss hn]
    simp [lookupChunk_append_of_none hn]

theorem generate_chunk_preserves {st : UState} {c c0 : Coord} {v : List GenPlanet}
    (h : lookupChunk st.cache c0 = some v) :
    lookupChunk (generate_chunk st c).cache c0 = some v := by
  by_cases hc : (lookupChunk st.cache c).isSome
  · rw [generate_chunk_cached hc]
    exact h
  · rw [generate_chunk_miss (Option.not_isSome_iff_eq_none.mp hc)]
    exact lookupChunk_append_of_some h

theorem generate_chunk_good {st : UState} {c : Coord} (h : GoodState st) :
    GoodState (generate_chunk st c) := by
  by_cases hc : (lookupChunk st.cache c).isSome
  · rw [generate_chunk_cached hc]
    exact h
  · have hn : lookupChunk st.cache c = none := Option.not_isSome_iff_eq_none.mp hc
    have hclog : c ∉ st.genLog := fun hmem => hc (h.2 c hmem)
    rw [generate_chunk_miss hn]
    constructor
    · simp [List.nodup_append, h.1, hclog]
    · intro c0 hc0
      rcases List.mem_append.mp hc0 with hm | hm
      · obtain ⟨v, hv⟩ := Option.isSome_iff_exists.mp (h.2 c0 hm)
        simp [lookupChunk_append_of_some hv]
      · have hx : c0 = c := by simpa using hm
        subst hx
        simp [lookupChunk_append_of_none hn]

theorem activeStep_pair (acc : List GenPlanet) (st0 : UState) (c : Coord) :
    activeStep (acc, st0) c =
      (acc ++ (lookupChunk (generate_chunk st0 c).cache c).getD [],
        generate_chunk st0 c) := rfl

theorem queryState_eq (st : UState) (c : Coord) :
    queryState st c = ((window c).foldl activeStep ([], st)).2 := rfl

theorem foldActive_preserves (cs : List Coord) (acc : List GenPlanet) (st0 : UState)
    {c0 : Coord} {v : List GenPlanet} (h : lookupChunk st0.cache c0 = some v) :
    lookupChunk ((cs.foldl activeStep (acc, st0)).2).cache c0 = some v := by
  induction cs generalizing acc st0 with
  | nil => exact h
  | cons c cs ih =>
      rw [List.foldl_cons, activeStep_pair]
      exact ih _ _ (generate_chunk_preserves h)

theorem foldActive_good (cs : List Coord) (acc : List GenPlanet) {st0 : UState}
    (h : GoodState st0) : GoodState ((cs.foldl activeStep (acc, st0)).2) := by
  induction cs generalizing acc st0 with
  | nil => exact h
  | cons c cs ih =>
      rw [List.foldl_cons, activeStep_pair]
      exact ih _ (generate_chunk_good h)

theorem foldActive_covers (cs : List Coord) (acc : List GenPlanet) (st0 : UState) :
    ∀ c ∈ cs, (lookupChunk ((cs.foldl activeStep (acc, st0)).2).cache c).isSome := by
  induction cs generalizing acc st0 with
  | nil => simp
  | cons c cs ih =>
      intro c0 hc0
      rw [List.foldl_cons, activeStep_pair]
      rcases List.mem_cons.mp hc0 with hx | hm
      · subst hx
        obtain ⟨v, hv⟩ :=
          Option.isSome_iff_exists.mp (generate_chunk_self_some st0 c0)
        simp [foldActive_preserves cs _ _ hv]
      · exact ih _ _ c0 hm

theorem foldActive_all_cached (cs : List Coord) (acc : List GenPlanet) (st0 : UState)
    (h : ∀ c ∈ cs, (lookupChunk st0.cache c).isSome) :
    cs.foldl activeStep (acc, st0) = (acc ++ activeOf st0 cs, st0) := by
  induction cs generalizing acc st0 with
  | nil => simp [activeOf]
  | cons c cs ih =>
      have hc := h c (List.mem_cons_self c cs)
      obtain ⟨v, hv⟩ := Option.isSome_iff_exists.mp hc
      rw [List.foldl_cons, activeStep_pair, generate_chunk_cached hc]
      rw [ih (acc ++ (lookupChunk st0.cache c).getD []) st0
        (fun c0 hc0 => h c0 (List.mem_cons_of_mem _ hc0))]
      simp [activeOf, hv, List.append_assoc]

theorem foldActive_result (cs : List Coord) (acc : List GenPlanet) (st0 : UState) :
    (cs.foldl activeStep (acc, st0)).1 =
      acc ++ activeOf (cs.foldl activeStep (acc, st0)).2 cs := by
  induction cs generalizing acc st0 with
  | nil => simp [activeOf]
  | cons c cs ih =>
      rw [List.foldl_cons, activeStep_pair, ih]
      obtain ⟨v, hv⟩ :=
        Option.isSome_iff_exists.mp (generate_chunk_self_some st0 c)
      have hfin : lookupChunk ((cs.foldl activeStep
          (acc ++ (lookupChunk (generate_chunk st0 c).cache c).getD [],
            generate_chunk st0 c)).2).cache c = some v :=
        foldActive_preserves cs _ _ hv
      simp only [activeOf]
      rw [hfin, hv]
      simp [List.append_assoc]

theorem query_idempotent (st : UState) (c : Coord) :
    (get_active_planets st c).1 =
      (get_active_planets ((get_active_planets st c).2) c).1 := by
  show ((window c).foldl activeStep ([], st)).1 =
    ((window c).foldl activeStep
      ([], ((window c).foldl activeStep ([], st)).2)).1
  have hres := foldActive_result (window c) [] st
  have hcov : ∀ c0 ∈ window c,
      (lookupChunk (((window c).foldl activeStep ([], st)).2).cache c0).isSome :=
    fun c0 h0 => foldActive_covers (window c) [] st c0 h0
  have h2 := foldActive_all_cached (window c) []
    (((window c).foldl activeStep ([], st)).2) hcov
  rw [hres, h2]

theorem runQueries_append (st : UState) (qs ms : List Coord) :
    runQueries st (qs ++ ms) = runQueries (runQueries st qs) ms := by
  unfold runQueries
  rw [List.foldl_append]

theorem runQueries_preserves {st : UState} {c0 : Coord} {v : List GenPlanet}
    (h : lookupChunk st.cache c0 = some v) (qs : List Coord) :
    lookupChunk (runQueries st qs).cache c0 = some v := by
  induction qs generalizing st with
  | nil => exact h
  | cons q qs ih =>
      unfold runQueries at ih ⊢
      rw [List.foldl_cons, queryState_eq]
      exact ih (foldActive_preserves _ _ _ h)

theorem runQueries_good {st : UState} (h : GoodState st) (qs : List Coord) :
    GoodState (runQueries st qs) := by
  induction qs generalizing st with
  | nil => exact h
  | cons q qs ih =>
      unfold runQueries at ih ⊢
      rw [List.foldl_cons, queryState_eq]
      exact ih (foldActive_good _ _ h)

/-- C3: the chunk generation body is a deterministic function of the
coordinate alone: from any two fresh states (coordinate not cached) with
arbitrary incoming global RNG states, generate_chunk stores the identical
body list (same count, and per body the same position, radius and color),
because random.seed(hash(coord)) overwrites the generator state. -/
theorem generate_chunk_deterministic (c : Coord) (s1 s2 : UState)
    (h1 : lookupChunk s1.cache c = none) (h2 : lookupChunk s2.cache c = none) :
    lookupChunk (generate_chunk s1 c).cache c =
      lookupChunk (generate_chunk s2 c).cache c ∧
    (lookupChunk (generate_chunk s1 c).cache c).isSome := by
  have key : ∀ s : UState, lookupChunk s.cache c = none →
      lookupChunk (generate_chunk s c).cache c = some ((generateBodies 0 c).2) := by
    intro s hs
    rw [generate_chunk_miss hs]
    have hsame : generateBodies s.rng c = generateBodies 0 c := rfl
    rw [hsame]
    exact lookupChunk_append_of_none hs _
  rw [key s1 h1, key s2 h2]
  simp

/-- C3 witness: two fresh universes with different RNG states store the
same bodies for chunk (0,0,0). -/
theorem generate_chunk_deterministic_witness :
    lookupChunk (generate_chunk (initUState 0) ((0 : Int), (0 : Int), (0 : Int))).cache
        ((0 : Int), (0 : Int), (0 : Int)) =
      lookupChunk (generate_chunk (initUState 123456789) ((0 : Int), (0 : Int), (0 : Int))).cache
        ((0 : Int), (0 : Int), (0 : Int)) ∧
    (lookupChunk (generate_chunk (initUState 0) ((0 : Int), (0 : Int), (0 : Int))).cache
        ((0 : Int), (0 : Int), (0 : Int))).isSome :=
  generate_chunk_deterministic ((0 : Int), (0 : Int), (0 : Int))
    (initUState 0) (initUState 123456789) rfl rfl

/-- C4: across any sequence of get_active_planets queries from a fresh
universe, (1) no chunk coordinate is ever generated twice (the generation
log stays duplicate-free), (2) a cached chunk's stored body list is never
replaced by later queries, and (3) repeating a query returns the same body
list. -/
theorem universe_no_regeneration (g : Nat) (qs more : List Coord) (c : Coord)
    (v : List GenPlanet) :
    (runQueries (initUState g) qs).genLog.Nodup ∧
    (lookupChunk (runQueries (initUState g) qs).cache c = some v →
      lookupChunk (runQueries (initUState g) (qs ++ more)).cache c = some v) ∧
    (get_active_planets (runQueries (initUState g) qs) c).1 =
      (get_active_planets
        ((get_active_planets (runQueries (initUState g) qs) c).2) c).1 := by
  have hgood : GoodState (runQueries (initUState g) qs) :=
    runQueries_good ⟨List.nodup_nil, by simp [initUState]⟩ qs
  refine ⟨hgood.1, ?_, ?_⟩
  · intro h
    rw [runQueries_append]
    exact runQueries_preserves h more
  · exact query_idempotent (runQueries (initUState g) qs) c

/-- C4 witness: one query at chunk (0,0,0), then one at (9,9,9); the
(0,0,0) entry is exactly the deterministic generation result, survives the
second query, the log is duplicate-free, and repeating the first query
returns the same list. -/
theorem universe_no_regeneration_witness :
    lookupChunk (runQueries (initUState 0) [((0 : Int), (0 : Int), (0 : Int))]).cache
        ((0 : Int), (0 : Int), (0 : Int)) =
      some ((generateBodies 0 ((0 : Int), (0 : Int), (0 : Int))).2) ∧
    (runQueries (initUState 0) [((0 : Int), (0 : Int), (0 : Int))]).genLog.Nodup ∧
    lookupChunk (runQueries (initUState 0)
          ([((0 : Int), (0 : Int), (0 : Int))] ++ [((9 : Int), (9 : Int), (9 : Int))])).cache
        ((0 : Int), (0 : Int), (0 : Int)) =
      some ((generateBodies 0 ((0 : Int), (0 : Int), (0 : Int))).2) ∧
    (get_active_planets (runQueries (initUState 0) [((0 : Int), (0 : Int), (0 : Int))])
        ((0 : Int), (0 : Int), (0 : Int))).1 =
      (get_active_planets
        ((get_active_planets (runQueries (initUState 0) [((0 : Int), (0 : Int), (0 : Int))])
            ((0 : Int), (0 : Int), (0 : Int))).2)
        ((0 : Int), (0 : Int), (0 : Int))).1 := by
  have h := universe_no_regeneration 0 [((0 : Int), (0 : Int), (0 : Int))]
    [((9 : Int), (9 : Int), (9 : Int))] ((0 : Int), (0 : Int), (0 : Int))
    ((generateBodies 0 ((0 : Int), (0 : Int), (0 : Int))).2)
  have hyp : lookupChunk (runQueries (initUState 0)
        [((0 : Int), (0 : Int), (0 : Int))]).cache ((0 : Int), (0 : Int), (0 : Int)) =
      some ((generateBodies 0 ((0 : Int), (0 : Int), (0 : Int))).2) := by rfl
  exact ⟨hyp, h.1, h.2.1 hyp, h.2.2⟩

/-- Fidelity checks of pyInt16 against CPython int(s, 16) at its accepted
and rejected edge forms: sign, surrounding whitespace, the 0x prefix,
underscores between digits, and the rejected empty, non-hex, bare-prefix
and misplaced-underscore strings. -/
theorem pyInt16_python_edge_forms :
    pyInt16 ("+1".toList) = some 1 ∧
    pyInt16 ("-f".toList) = some (-15) ∧
    pyInt16 (" 1 ".toList) = some 1 ∧
    pyInt16 ("0x1f".toList) = some 31 ∧
    pyInt16 ("+0X_f".toList) = some 15 ∧
    pyInt16 ("f_f".toList) = some 255 ∧
    pyInt16 ("".toList) = none ∧
    pyInt16 ("zz".toList) = none ∧
    pyInt16 ("0x".toList) = none ∧
    pyInt16 ("_1".toList) = none ∧
    pyInt16 ("1_".toList) = none ∧
    pyInt16 ("+ 1".toList) = none := by
  refine ⟨rfl, rfl, rfl, rfl, rfl, rfl, rfl, rfl, rfl, rfl, rfl, rfl⟩

/-- C7 counterexample: a present ocean hex string whose slices int(_, 16)
rejects (here non-hex characters) makes the color computation of
Planet.__init__ fail (ValueError) instead of substituting the default:
construction does not survive every malformed color string. -/
theorem malformed_color_fails :
    planetColor (some ⟨some ("#zzzzzz".toList)⟩) = none ∧
    planetColor (some ⟨some ("#zzzzzz".toList)⟩) ≠ some defaultOceanColor := by
  refine ⟨rfl, ?_⟩
  intro h
  rw [show planetColor (some ⟨some ("#zzzzzz".toList)⟩) = none from rfl] at h
  exact Option.noConfusion h

/-- C7 amended: the default ocean color is substituted exactly when the
colors dict or its ocean entry is absent; a present string is decoded
slice by slice with Python int(_, 16) semantics, so slices that Python
accepts decode without error — including signed ones, as in the color
string with sign characters whose slices decode to 1, 2 and 3 — and
construction fails only when a slice is rejected (counterexample). -/
theorem color_default_when_absent :
    (∀ colors, oceanOf colors = none → planetColor colors = some defaultOceanColor) ∧
    planetColor (some ⟨some ("#+1+2+3".toList)⟩) =
      some ((1 : ℚ) / 255, (2 : ℚ) / 255, (3 : ℚ) / 255) := by
  constructor
  · intro colors h
    have hval : planetColor colors =
        some (((68 : Int) : ℚ) / 255, ((136 : Int) : ℚ) / 255, ((255 : Int) : ℚ) / 255) := by
      unfold planetColor
      rw [h]
      rfl
    rw [hval]
    show _ = some ((68 : ℚ) / 255, (136 : ℚ) / 255, (1 : ℚ))
    norm_num
  · have hval : planetColor (some ⟨some ("#+1+2+3".toList)⟩) =
        some (((1 : Int) : ℚ) / 255, ((2 : Int) : ℚ) / 255, ((3 : Int) : ℚ) / 255) := by
      rfl
    rw [hval]
    norm_num

/-- C7 amended witness: both ways the ocean entry can be absent. -/
theorem color_default_when_absent_witness :
    planetColor none = some defaultOceanColor ∧
    planetColor (some ⟨none⟩) = some defaultOceanColor :=
  ⟨color_default_when_absent.1 none rfl, color_default_when_absent.1 (some ⟨none⟩) rfl⟩

/-- C8 counterexample: parentId -1 with no body added yet passes the
upper-bound check (-1 < 0) and then Python indexing of the empty list
raises IndexError, so this dangling reference fails the whole import
instead of being ignored. -/
theorem negative_parent_fails :
    resolveParentIdx (some (-1)) 0 = Except.error "IndexError" ∧
    load_solar_system sysNegParent ⟨0, 0, 0⟩ [] = ([], some "IndexError") := by
  exact ⟨rfl, rfl⟩

/-- C8 amended: a parent reference is ignored (no parent, import goes on)
when parentId is absent or at least the number of bodies added so far
(which covers nonnegative self-references); a negative parentId follows
Python indexing: in [-n, -1] it resolves to the body at n + parentId, and
below -n it raises IndexError, aborting the import (surfaced as a status
message by the caller). -/
theorem parent_resolution (pid : Option Int) (n : Nat) :
    (pid = none → resolveParentIdx pid n = Except.ok none) ∧
    (∀ i, pid = some i → (n : Int) ≤ i → resolveParentIdx pid n = Except.ok none) ∧
    (∀ i, pid = some i → 0 ≤ i → i < (n : Int) →
      resolveParentIdx pid n = Except.ok (some i.toNat)) ∧
    (∀ i, pid = some i → i < 0 → 0 ≤ (n : Int) + i →
      resolveParentIdx pid n = Except.ok (some ((n : Int) + i).toNat)) ∧
    (∀ i, pid = some i → (n : Int) + i < 0 →
      resolveParentIdx pid n = Except.error "IndexError") := by
  refine ⟨?_, ?_, ?_, ?_, ?_⟩
  · intro h
    subst h
    rfl
  · intro i h hge
    subst h
    show (if i < (n : Int) then _ else _) = _
    rw [if_neg (not_lt.mpr hge)]
  · intro i h h0 hlt
    subst h
    show (if i < (n : Int) then _ else _) = _
    rw [if_pos hlt, if_pos h0]
  · intro i h hneg hge
    subst h
    have hlt : i < (n : Int) := by omega
    show (if i < (n : Int) then _ else _) = _
    rw [if_pos hlt, if_neg (not_le.mpr hneg), if_pos hge]
  · intro i h hlt0
    subst h
    have hneg : ¬(0 : Int) ≤ i := by omega
    have hlt : i < (n : Int) := by omega
    show (if i < (n : Int) then _ else _) = _
    rw [if_pos hlt, if_neg hneg, if_neg (not_le.mpr hlt0)]

/-- C8 amended witness: absent, out-of-range, self-referential, in-range,
negative in-range and negative out-of-range parent ids. -/
theorem parent_resolution_witness :
    resolveParentIdx none 5 = Except.ok none ∧
    resolveParentIdx (some 7) 3 = Except.ok none ∧
    resolveParentIdx (some 3) 3 = Except.ok none ∧
    resolveParentIdx (some 1) 3 = Except.ok (some 1) ∧
    resolveParentIdx (some (-1)) 3 = Except.ok (some 2) ∧
    resolveParentIdx (some (-4)) 3 = Except.error "IndexError" := by
  refine ⟨?_, ?_, ?_, ?_, ?_, ?_⟩
  · exact (parent_resolution none 5).1 rfl
  · exact (parent_resolution (some 7) 3).2.1 7 rfl (by norm_num)
  · exact (parent_resolution (some 3) 3).2.1 3 rfl (by norm_num)
  · exact (parent_resolution (some 1) 3).2.2.1 1 rfl (by norm_num) (by norm_num)
  · have h := (parent_resolution (some (-1)) 3).2.2.2.1 (-1) rfl
      (by norm_num) (by norm_num)
    simpa using h
  · exact (parent_resolution (some (-4)) 3).2.2.2.2 (-4) rfl (by norm_num)

theorem galaxyLoop_appends (playerPos : Vec3) (offs : Nat → Vec3) :
    ∀ (sds : List GalaxySys) (k : Nat) (systems : List SolarSystem),
      ∃ gs err, galaxyLoop playerPos offs k systems sds = (systems ++ gs, err) ∧
        ∀ g ∈ gs, ∃ sd ∈ sds, ∃ j, buildGalaxySystem playerPos (offs j) sd =
          Except.ok g := by
  intro sds
  induction sds with
  | nil =>
      intro k systems
      exact ⟨[], none, by simp [galaxyLoop], by simp⟩
  | cons sd rest ih =>
      intro k systems
      cases hbuild : buildGalaxySystem playerPos (offs k) sd with
      | error e =>
          refine ⟨[], some e, ?_, by simp⟩
          simp [galaxyLoop, hbuild]
      | ok sys =>
          obtain ⟨gs, err, heq, hall⟩ := ih (k + 1) (systems ++ [sys])
          refine ⟨sys :: gs, err, ?_, ?_⟩
          · show galaxyLoop playerPos offs k systems (sd :: rest) = _
            simp only [galaxyLoop, hbuild]
            rw [heq]
            simp
          · intro g hg
            rcases List.mem_cons.mp hg with rfl | hm
            · exact ⟨sd, List.mem_cons_self sd rest, k, hbuild⟩
            · obtain ⟨sd2, hsd2, j, hj⟩ := hall g hm
              exact ⟨sd2, List.mem_cons_of_mem _ hsd2, j, hj⟩

/-- C9: each importer either appends only complete groups to the live list
or reports the failure with the list unchanged beyond those complete
groups: load_solar_system appends its single group exactly when the whole
body loop succeeded; every group load_galaxy appends is the complete
build of one of the archive's systems, and the system being built when a
failure occurs is not appended; load_single_planet appends its one-body
group only on success. All three return a status instead of aborting. -/
theorem import_no_partial_groups :
    (∀ m playerPos systems,
      (∃ g, buildBodies (initSystem m playerPos) m.bodies = Except.ok g ∧
        load_solar_system m playerPos systems = (systems ++ [g], none)) ∨
      (∃ e, buildBodies (initSystem m playerPos) m.bodies = Except.error e ∧
        load_solar_system m playerPos systems = (systems, some e))) ∧
    (∀ gal playerPos offs systems, ∃ gs err,
      load_galaxy gal playerPos offs systems = (systems ++ gs, err) ∧
      ∀ grp ∈ gs, ∃ sd ∈ gal.systems, ∃ j,
        buildGalaxySystem playerPos (offs j) sd = Except.ok grp) ∧
    (∀ pd playerPos off systems,
      (∃ e, load_single_planet pd playerPos off systems = (systems, some e)) ∨
      (∃ grp, load_single_planet pd playerPos off systems =
        (systems ++ [grp], none))) := by
  refine ⟨?_, ?_, ?_⟩
  · intro m playerPos systems
    cases h : buildBodies (initSystem m playerPos) m.bodies with
    | ok sys =>
        exact Or.inl ⟨sys, rfl, by simp [load_solar_system, h]⟩
    | error e =>
        exact Or.inr ⟨e, rfl, by simp [load_solar_system, h]⟩
  · intro gal playerPos offs systems
    obtain ⟨gs, err, heq, hall⟩ :=
      galaxyLoop_appends playerPos offs (gal.systems.take 4) 0 systems
    refine ⟨gs, err, heq, ?_⟩
    intro grp hg
    obtain ⟨sd, hsd, j, hj⟩ := hall grp hg
    exact ⟨sd, List.mem_of_mem_take hsd, j, hj⟩
  · intro pd playerPos off systems
    cases pd with
    | none => exact Or.inl ⟨"json error", rfl⟩
    | some d =>
        cases h : planetColor d.colors with
        | none => exact Or.inl ⟨"ValueError", by simp [load_single_planet, h]⟩
        | some col =>
            refine Or.inr ?_
            unfold load_single_planet
            dsimp only
            rw [h]
            exact ⟨_, rfl⟩

/-- C9 witness: instantiations at a concrete mixed galaxy archive (first
system empty and fine, second with a malformed color), a concrete system
manifest and a concrete unreadable planet archive. -/
theorem import_no_partial_groups_witness :
    ((∃ g, buildBodies (initSystem sysNegParent ⟨0, 0, 0⟩) sysNegParent.bodies =
        Except.ok g ∧
      load_solar_system sysNegParent ⟨0, 0, 0⟩ [] = ([] ++ [g], none)) ∨
     (∃ e, buildBodies (initSystem sysNegParent ⟨0, 0, 0⟩) sysNegParent.bodies =
        Except.error e ∧
      load_solar_system sysNegParent ⟨0, 0, 0⟩ [] = ([], some e))) ∧
    (∃ gs err,
      load_galaxy galMixed ⟨0, 0, 0⟩ (fun _ => ⟨0, 0, 0⟩) [] = ([] ++ gs, err) ∧
      ∀ grp ∈ gs, ∃ sd ∈ galMixed.systems, ∃ _j : Nat,
        buildGalaxySystem ⟨0, 0, 0⟩ ⟨0, 0, 0⟩ sd = Except.ok grp) ∧
    ((∃ e, load_single_planet none ⟨0, 0, 0⟩ ⟨0, 0, 0⟩ [] = ([], some e)) ∨
     (∃ grp, load_single_planet none ⟨0, 0, 0⟩ ⟨0, 0, 0⟩ [] = ([] ++ [grp], none))) := by
  refine ⟨import_no_partial_groups.1 sysNegParent ⟨0, 0, 0⟩ [], ?_,
    import_no_partial_groups.2.2 none ⟨0, 0, 0⟩ ⟨0, 0, 0⟩ []⟩
  exact import_no_partial_groups.2.1 galMixed ⟨0, 0, 0⟩ (fun _ => ⟨0, 0, 0⟩) []

end Saucer
